import Mathlib

/-
Verification development for the annas-mcp repository (package
internal/modes): configuration resolution (LoadEnv / GetEnv), the
query-parameter-to-environment bridge (configureEnvFromRequest), the
bearer-token auth middleware (oauthMiddleware), the OAuth callback
handler, the HTTP route table with CORS handling, transport dispatch
in StartHTTPServer, and the search / download tool handlers.

Modelling conventions:
- A process environment (os.Getenv / os.Setenv) is a total function
  from variable names to strings; Go returns the empty string for an
  unset variable, so absence is represented by the empty string.
- An HTTP query (url.Values.Get) is an association list of key / value
  pairs; Get returns the first value for the key, or the empty string.
- Fallible Go functions returning (T, error) become Except String T.
- A Go panic (out-of-range string slice) is an explicit outcome
  constructor; string indices are character counts, which agree with
  the byte counts of the Go original on ASCII data.
-/

namespace AnnasMcp

/-- A process environment: os.Getenv semantics, empty string when unset. -/
def EnvMap := String → String

/-- An HTTP request query string, as an association list (url.Values). -/
def Query := List (String × String)

/-- url.Values.Get: the first value associated with the key, or the
empty string when the key is absent. -/
def queryGet (q : Query) (key : String) : String :=
  match q.find? (fun p => p.1 == key) with
  | some p => p.2
  | none => ""

/-- The resolved configuration, struct Env in internal/modes. -/
structure Env where
  secretKey : String
  downloadPath : String
deriving Repr, DecidableEq

/-- Error message returned by LoadEnv when no secret key resolves
(src/unnamed/part_001 line 67). -/
def loadEnvErrMsg : String :=
  "secretKey must be set via query param, ANNAS_SECRET_KEY, SECRET_KEY, or secretKey env var"

/-- The secretKey assignment chain of LoadEnv (src/unnamed/part_001
lines 25-63): the Go body interleaves the per-field if-statements over
two independent local variables; the secretKey half is gathered here. -/
def secretChain (req : Option Query) (env : EnvMap) : String :=
  let secretKey :=
    match req with
    | some query =>
        if queryGet query "secretKey" ≠ "" then queryGet query "secretKey"
        else if queryGet query "ANNAS_SECRET_KEY" ≠ "" then queryGet query "ANNAS_SECRET_KEY"
        else ""
    | none => ""
  let secretKey := if secretKey = "" then env "ANNAS_SECRET_KEY" else secretKey
  let secretKey := if secretKey = "" then env "secretKey" else secretKey
  if secretKey = "" then env "SECRET_KEY" else secretKey

/-- The downloadPath assignment chain of LoadEnv (src/unnamed/part_001
lines 26-58): the downloadPath half of the interleaved body; the
generic SECRET_KEY tier has no downloadPath counterpart. -/
def pathChain (req : Option Query) (env : EnvMap) : String :=
  let downloadPath :=
    match req with
    | some query =>
        if queryGet query "downloadPath" ≠ "" then queryGet query "downloadPath"
        else if queryGet query "ANNAS_DOWNLOAD_PATH" ≠ "" then queryGet query "ANNAS_DOWNLOAD_PATH"
        else ""
    | none => ""
  let downloadPath := if downloadPath = "" then env "ANNAS_DOWNLOAD_PATH" else downloadPath
  if downloadPath = "" then env "downloadPath" else downloadPath

/-- LoadEnv (src/unnamed/part_001 lines 22-81): resolves the
configuration from query parameters (when a request is present), then
the standard environment variables ANNAS_SECRET_KEY / ANNAS_DOWNLOAD_PATH,
then the Smithery-style variables secretKey / downloadPath, then the
generic SECRET_KEY for the secret only; fails when the secret stays
empty, defaults the download path to /tmp/downloads. -/
def LoadEnv (req : Option Query) (env : EnvMap) : Except String Env :=
  let secretKey := secretChain req env
  let downloadPath := pathChain req env
  if secretKey = "" then
    .error loadEnvErrMsg
  else
    let downloadPath := if downloadPath = "" then "/tmp/downloads" else downloadPath
    .ok ⟨secretKey, downloadPath⟩

/-- GetEnv (src/unnamed/part_001 lines 84-86): LoadEnv with no request. -/
def GetEnv (env : EnvMap) : Except String Env :=
  LoadEnv none env

/-- Spec-side resolution primitive: the first non-empty value of an
ordered candidate list, or the empty string when all are empty. -/
def firstNonEmpty : List String → String
  | [] => ""
  | s :: rest => if s = "" then firstNonEmpty rest else s

/-- The ordered candidate list for the secret key: the two query
aliases (when a request is present), then ANNAS_SECRET_KEY, secretKey,
SECRET_KEY from the environment. -/
def secretSources (req : Option Query) (env : EnvMap) : List String :=
  (match req with
   | some query => [queryGet query "secretKey", queryGet query "ANNAS_SECRET_KEY"]
   | none => []) ++
  [env "ANNAS_SECRET_KEY", env "secretKey", env "SECRET_KEY"]

/-- The ordered candidate list for the download path: the two query
aliases (when a request is present), then ANNAS_DOWNLOAD_PATH and
downloadPath from the environment; no generic fallback. -/
def pathSources (req : Option Query) (env : EnvMap) : List String :=
  (match req with
   | some query => [queryGet query "downloadPath", queryGet query "ANNAS_DOWNLOAD_PATH"]
   | none => []) ++
  [env "ANNAS_DOWNLOAD_PATH", env "downloadPath"]

/-- Spec-side statement of the resolver: highest-priority non-empty
candidate per field, independent per field, MissingCredential when the
secret stays empty, fixed default path. -/
def loadEnvSpec (req : Option Query) (env : EnvMap) : Except String Env :=
  let sk := firstNonEmpty (secretSources req env)
  let dp := firstNonEmpty (pathSources req env)
  if sk = "" then .error loadEnvErrMsg
  else .ok ⟨sk, if dp = "" then "/tmp/downloads" else dp⟩

/-- The secretKey chain computes the first non-empty candidate of the
ordered secret source list. -/
theorem secretChain_eq_firstNonEmpty (req : Option Query) (env : EnvMap) :
    secretChain req env = firstNonEmpty (secretSources req env) := by
  cases req <;>
    simp only [secretChain, secretSources, firstNonEmpty, List.nil_append,
      List.cons_append] <;>
    split_ifs <;> simp_all

/-- The downloadPath chain computes the first non-empty candidate of
the ordered path source list. -/
theorem pathChain_eq_firstNonEmpty (req : Option Query) (env : EnvMap) :
    pathChain req env = firstNonEmpty (pathSources req env) := by
  cases req <;>
    simp only [pathChain, pathSources, firstNonEmpty, List.nil_append,
      List.cons_append] <;>
    split_ifs <;> simp_all

/-- The source resolver agrees with the tiered first-non-empty
description, for every request and environment. -/
theorem loadEnv_eq_spec (req : Option Query) (env : EnvMap) :
    LoadEnv req env = loadEnvSpec req env := by
  simp only [LoadEnv, loadEnvSpec, secretChain_eq_firstNonEmpty,
    pathChain_eq_firstNonEmpty]

/-- C1: for every combination of the four source tiers, LoadEnv
resolves each field to the highest-priority non-empty candidate,
independently per field; concretely, query secretKey=A and
downloadPath=B with environment ANNAS_SECRET_KEY=C resolves to
secretKey A and downloadPath B, and with no query values and both
ANNAS_SECRET_KEY=C and secretKey=D in the environment the secret
resolves to C. -/
theorem c1_loadEnv_tier_precedence :
    (∀ (req : Option Query) (env : EnvMap), LoadEnv req env = loadEnvSpec req env) ∧
    LoadEnv (some [("secretKey", "A"), ("downloadPath", "B")])
        (fun k => if k = "ANNAS_SECRET_KEY" then "C" else "") =
      .ok ⟨"A", "B"⟩ ∧
    LoadEnv (some [])
        (fun k => if k = "ANNAS_SECRET_KEY" then "C" else if k = "secretKey" then "D" else "") =
      .ok ⟨"C", "/tmp/downloads"⟩ := by
  exact ⟨loadEnv_eq_spec, rfl, rfl⟩

/-- C4: when all four secret tiers are empty LoadEnv fails with the
missing-credential error; a resolution failure only ever comes from an
empty secret; and when the secret resolves but no download path tier
is set, the path defaults to /tmp/downloads without failing. -/
theorem c4_loadEnv_missing_secret (req : Option Query) (env : EnvMap) :
    (firstNonEmpty (secretSources req env) = "" → LoadEnv req env = .error loadEnvErrMsg) ∧
    (∀ e, LoadEnv req env = .error e → firstNonEmpty (secretSources req env) = "") ∧
    (firstNonEmpty (secretSources req env) ≠ "" → firstNonEmpty (pathSources req env) = "" →
      LoadEnv req env = .ok ⟨firstNonEmpty (secretSources req env), "/tmp/downloads"⟩) := by
  have h := loadEnv_eq_spec req env
  refine ⟨fun hs => ?_, fun e he => ?_, fun hs hp => ?_⟩
  · rw [h]; simp [loadEnvSpec, hs]
  · by_contra hs
    rw [h] at he
    simp [loadEnvSpec, hs] at he
  · rw [h]; simp [loadEnvSpec, hs, hp]

/-- Witness for C4: with an empty environment LoadEnv fails; with only
SECRET_KEY set the resolution succeeds and the path defaults. -/
theorem c4_loadEnv_missing_secret_witness :
    LoadEnv none (fun _ => "") = .error loadEnvErrMsg ∧
    LoadEnv none (fun k => if k = "SECRET_KEY" then "K" else "") =
      .ok ⟨"K", "/tmp/downloads"⟩ := by
  exact ⟨(c4_loadEnv_missing_secret none (fun _ => "")).1 rfl,
    (c4_loadEnv_missing_secret none (fun k => if k = "SECRET_KEY" then "K" else "")).2.2
      (by decide) rfl⟩

/-- os.Setenv: point update of the process-wide environment. -/
def setenv (env : EnvMap) (key v : String) : EnvMap :=
  fun k => if k = key then v else env k

/-- configureEnvFromRequest (src/internal/modes/httpserver.go lines
24-48): copies non-empty query credentials into the process-wide
environment with os.Setenv, first under the Smithery-style names,
then under the direct variable names. Returns the updated shared
environment. -/
def configureEnvFromRequest (q : Query) (env : EnvMap) : EnvMap :=
  let env := if queryGet q "secretKey" ≠ "" then
      setenv env "ANNAS_SECRET_KEY" (queryGet q "secretKey") else env
  let env := if queryGet q "downloadPath" ≠ "" then
      setenv env "ANNAS_DOWNLOAD_PATH" (queryGet q "downloadPath") else env
  let env := if queryGet q "ANNAS_SECRET_KEY" ≠ "" then
      setenv env "ANNAS_SECRET_KEY" (queryGet q "ANNAS_SECRET_KEY") else env
  let env := if queryGet q "ANNAS_DOWNLOAD_PATH" ≠ "" then
      setenv env "ANNAS_DOWNLOAD_PATH" (queryGet q "ANNAS_DOWNLOAD_PATH") else env
  env

/-- C2 is refuted by the code: per-connection configuration in HTTP
mode goes through configureEnvFromRequest, which mutates the shared
process environment. Starting from an empty environment, connection A
(query secretKey=secretA) configures, then connection B (query
secretKey=secretB) configures before the tools of A resolve via
GetEnv: the first conjunct shows the mutation of shared state, the
second shows the resolution on behalf of A observing the secret of B. -/
theorem c2_configureEnv_interference :
    (configureEnvFromRequest [("secretKey", "secretA")] (fun _ => ""))
        "ANNAS_SECRET_KEY" = "secretA" ∧
    GetEnv (configureEnvFromRequest [("secretKey", "secretB")]
        (configureEnvFromRequest [("secretKey", "secretA")] (fun _ => ""))) =
      .ok ⟨"secretB", "/tmp/downloads"⟩ := by
  exact ⟨rfl, rfl⟩

/-- Outcome of the auth middleware on one request: pass the request to
the wrapped protocol handler, reject it with an HTTP status and
reason, or panic inside the handler. -/
inductive AuthOutcome where
  | pass
  | reject (status : Nat) (reason : String)
  | panics
deriving Repr, DecidableEq

/-- strings.SplitN(s, " ", 2) in the characters view: the characters
before the first space and those after it, when a space occurs. -/
def splitOnFirstSpace : List Char → Option (List Char × List Char)
  | [] => none
  | c :: cs =>
      if c = ' ' then some ([], cs)
      else
        match splitOnFirstSpace cs with
        | none => none
        | some (a, b) => some (c :: a, b)

/-- strings.SplitN(authHeader, " ", 2): the whole string when it has
no space, otherwise the parts before and after the first space. -/
def splitN2 (s : String) : List String :=
  match splitOnFirstSpace s.data with
  | none => [s]
  | some (a, b) => [String.mk a, String.mk b]

def missingAuthMsg : String := "Unauthorized: Missing Authorization header"

def invalidAuthMsg : String := "Unauthorized: Invalid Authorization header format"

def emptyTokenMsg : String := "Unauthorized: Empty Bearer token"

/-- oauthMiddleware (src/unnamed/part_002 lines 274-313): when
SMITHERY_CLIENT_ID is unset every request passes; otherwise the
Authorization header must be present, split as Bearer plus token, and
the token must be non-empty. The final debug log slices token[:10],
which is out of range and panics when the admitted token is shorter
than 10 characters (byte count in Go; character count here, equal on
ASCII data). -/
def oauthMiddleware (env : EnvMap) (authHeader : String) : AuthOutcome :=
  if env "SMITHERY_CLIENT_ID" = "" then .pass
  else if authHeader = "" then .reject 401 missingAuthMsg
  else
    match splitN2 authHeader with
    | [scheme, tok] =>
        if scheme ≠ "Bearer" then .reject 401 invalidAuthMsg
        else if tok = "" then .reject 401 emptyTokenMsg
        else if tok.length < 10 then .panics
        else .pass
    | _ => .reject 401 invalidAuthMsg

/-- Outcome of the /oauth/callback handler. -/
inductive CallbackOutcome where
  | badRequest (msg : String)
  | success
  | panics
deriving Repr, DecidableEq

/-- The /oauth/callback handler (src/unnamed/part_002 lines 204-229):
HTTP 400 when the code query parameter is missing; otherwise the info
log slices code[:10], which is out of range and panics when the code
is shorter than 10 characters; else the handler responds 200 with a
success body. -/
def oauthCallbackHandler (q : Query) : CallbackOutcome :=
  let code := queryGet q "code"
  if code = "" then .badRequest "Missing authorization code"
  else if code.length < 10 then .panics
  else .success

/-- A gate-active environment: SMITHERY_CLIENT_ID configured. -/
def gateEnv : EnvMap :=
  fun k => if k = "SMITHERY_CLIENT_ID" then "client-id" else ""

/-- C3 evaluated on the code: with the gate inactive any request
passes; with the gate active, a missing header, a Token-scheme header
and an empty bearer token are each rejected 401 with the descriptive
reason, as the claim states — but the header Bearer xyz does not pass
to the protocol handler: the token-prefix debug log slices xyz[:10]
out of range and the handler panics, refuting the claim at that
input. -/
theorem c3_authGate_eval :
    oauthMiddleware (fun _ => "") "Token xyz" = .pass ∧
    oauthMiddleware gateEnv "" = .reject 401 missingAuthMsg ∧
    oauthMiddleware gateEnv "Token xyz" = .reject 401 invalidAuthMsg ∧
    oauthMiddleware gateEnv "Bearer " = .reject 401 emptyTokenMsg ∧
    oauthMiddleware gateEnv "Bearer xyz" = .panics := by
  refine ⟨rfl, rfl, rfl, rfl, rfl⟩

/-- Splitting a string that starts with the characters of the literal
Bearer-plus-space: the split occurs at that space. -/
theorem splitOnFirstSpace_bearer (l : List Char) :
    splitOnFirstSpace ("Bearer ".data ++ l) = some ("Bearer".data, l) := by
  show splitOnFirstSpace (['B', 'e', 'a', 'r', 'e', 'r', ' '] ++ l) =
    some (['B', 'e', 'a', 'r', 'e', 'r'], l)
  simp [splitOnFirstSpace]

/-- SplitN on a well-formed bearer header recovers the scheme and the
token. -/
theorem splitN2_bearer (tok : String) :
    splitN2 ("Bearer " ++ tok) = ["Bearer", tok] := by
  unfold splitN2
  rw [String.data_append, splitOnFirstSpace_bearer]

/-- A well-formed bearer header is not the empty string. -/
theorem bearer_append_ne_empty (tok : String) : ("Bearer " ++ tok) ≠ "" := by
  intro h
  have hd : ("Bearer " ++ tok).data = "".data := by rw [h]
  rw [String.data_append] at hd
  simp at hd

/-- C9: the handlers logging a 10-character credential prefix are not
total: a non-empty oauth-callback code shorter than 10 characters
makes the callback handler panic, and with the gate active a non-empty
bearer token shorter than 10 characters makes the admitted request
panic inside the middleware instead of passing. -/
theorem c9_short_credential_panics :
    (∀ q : Query, queryGet q "code" ≠ "" → (queryGet q "code").length < 10 →
      oauthCallbackHandler q = .panics) ∧
    (∀ (env : EnvMap) (tok : String), env "SMITHERY_CLIENT_ID" ≠ "" → tok ≠ "" →
      tok.length < 10 → oauthMiddleware env ("Bearer " ++ tok) = .panics) := by
  constructor
  · intro q hcode hlen
    unfold oauthCallbackHandler
    simp only [if_neg hcode, if_pos hlen]
  · intro env tok hgate htok hlen
    unfold oauthMiddleware
    rw [if_neg hgate, if_neg (bearer_append_ne_empty tok), splitN2_bearer]
    simp [htok, hlen]

/-- Witness for C9: the callback panics at code abc, the middleware
panics at bearer token xyz with the gate active. -/
theorem c9_short_credential_panics_witness :
    oauthCallbackHandler [("code", "abc")] = .panics ∧
    oauthMiddleware gateEnv ("Bearer " ++ "xyz") = .panics := by
  exact ⟨c9_short_credential_panics.1 [("code", "abc")] (by decide) (by decide),
    c9_short_credential_panics.2 gateEnv "xyz" (by decide) (by decide) (by decide)⟩

/-- An HTTP request as the mounted handlers consume it. -/
structure Request where
  method : String
  path : String
  query : Query
  authHeader : String

/-- An HTTP response: status line, written headers, written body. -/
structure HTTPResponse where
  status : Nat
  headers : List (String × String)
  body : String
deriving Repr, DecidableEq

/-- The permissive headers set by corsMiddleware
(src/internal/modes/httpserver.go lines 220-234). -/
def corsHeaders : List (String × String) :=
  [("Access-Control-Allow-Origin", "*"),
   ("Access-Control-Allow-Methods", "GET, POST, OPTIONS"),
   ("Access-Control-Allow-Headers", "Content-Type, Accept"),
   ("Access-Control-Max-Age", "3600")]

/-- corsMiddleware (src/internal/modes/httpserver.go lines 220-234):
sets the permissive headers; an OPTIONS request is answered 200 with
no body, any other request continues to the wrapped handler. -/
def corsMiddleware (next : Request → HTTPResponse) (r : Request) : HTTPResponse :=
  if r.method = "OPTIONS" then ⟨200, corsHeaders, ""⟩
  else
    let inner := next r
    ⟨inner.status, corsHeaders ++ inner.headers, inner.body⟩

/-- Headers of the mcp-config discovery handler
(src/internal/modes/httpserver.go lines 116-119). -/
def mcpConfigHeaders : List (String × String) :=
  [("Content-Type", "application/json"),
   ("Access-Control-Allow-Origin", "*"),
   ("Access-Control-Allow-Methods", "GET, OPTIONS"),
   ("Access-Control-Allow-Headers", "Content-Type")]

/-- The JSON body of the config-schema document. Its content is a
static JSON object (title, description, the secretKey and downloadPath
properties, required secretKey); no claim inspects the rendered text,
so it is carried as a fixed non-empty string. -/
def configSchemaBody : String := "config-schema-json"

/-- The /.well-known/mcp-config handler
(src/internal/modes/httpserver.go lines 115-151): sets the JSON and
CORS headers, answers OPTIONS with 200 and no body, otherwise writes
200 and the schema document. -/
def mcpConfigHandler (r : Request) : HTTPResponse :=
  if r.method = "OPTIONS" then ⟨200, mcpConfigHeaders, ""⟩
  else ⟨200, mcpConfigHeaders, configSchemaBody⟩

/-- Headers of the server-card discovery handler
(src/internal/modes/httpserver.go lines 155-159). -/
def serverCardHeaders : List (String × String) :=
  mcpConfigHeaders ++ [("Cache-Control", "public, max-age=3600")]

/-- The JSON body of the server-card document: static metadata (name,
description, version, the two tool entries); no claim inspects the
rendered text, so it is carried as a fixed non-empty string. -/
def serverCardBody : String := "server-card-json"

/-- The server-card handler (src/internal/modes/httpserver.go lines
154-188), registered at both well-known paths: answers OPTIONS with
200 and no body, otherwise writes 200 and the card document. -/
def serverCardHandler (r : Request) : HTTPResponse :=
  if r.method = "OPTIONS" then ⟨200, serverCardHeaders, ""⟩
  else ⟨200, serverCardHeaders, serverCardBody⟩

/-- The /health handler (src/internal/modes/httpserver.go lines
195-198): writes 200 and the body OK for every method, without
setting any header. -/
def healthHandler (_ : Request) : HTTPResponse :=
  ⟨200, [], "OK"⟩

/-- ServeMux routing of StartHTTPServer
(src/internal/modes/httpserver.go lines 111-198): the protocol
endpoint behind corsMiddleware, the config-schema document, the
server-card document at its two paths, the health endpoint; anything
else gets the Go mux 404. The protocol handler itself (SSE or
streamable session handling) is the inner parameter. -/
def serveMux (inner : Request → HTTPResponse) (r : Request) : HTTPResponse :=
  if r.path = "/mcp" then corsMiddleware inner r
  else if r.path = "/.well-known/mcp-config" then mcpConfigHandler r
  else if r.path = "/.well-known/mcp-server-card.json" then serverCardHandler r
  else if r.path = "/.well-known/mcp/server-card.json" then serverCardHandler r
  else if r.path = "/health" then healthHandler r
  else ⟨404, [], "404 page not found"⟩

/-- The paths mounted by StartHTTPServer. -/
def mountedPaths : List String :=
  ["/mcp", "/.well-known/mcp-config", "/.well-known/mcp-server-card.json",
   "/.well-known/mcp/server-card.json", "/health"]

/-- C7 is refuted at the health endpoint: an OPTIONS request to
/health is answered by the health handler with the body OK and
without the permissive cross-origin header, not with an empty body
and permissive headers as the claim states for every mounted path. -/
theorem c7_health_options_counterexample :
    (serveMux (fun _ => ⟨200, [], ""⟩) ⟨"OPTIONS", "/health", [], ""⟩).body = "OK" ∧
    ("Access-Control-Allow-Origin", "*") ∉
      (serveMux (fun _ => ⟨200, [], ""⟩) ⟨"OPTIONS", "/health", [], ""⟩).headers := by
  exact ⟨rfl, by decide⟩

/-- C7 amended: an OPTIONS preflight on the protocol endpoint and on
the three discovery-document paths returns 200 with the permissive
cross-origin header and an empty body, for every inner protocol
handler and request context; on the health endpoint it returns 200,
but with the body OK and no cross-origin header. -/
theorem c7_options_preflight (inner : Request → HTTPResponse) (q : Query) (a : String) :
    (∀ p ∈ ["/mcp", "/.well-known/mcp-config", "/.well-known/mcp-server-card.json",
        "/.well-known/mcp/server-card.json"],
      (serveMux inner ⟨"OPTIONS", p, q, a⟩).status = 200 ∧
      ("Access-Control-Allow-Origin", "*") ∈ (serveMux inner ⟨"OPTIONS", p, q, a⟩).headers ∧
      (serveMux inner ⟨"OPTIONS", p, q, a⟩).body = "") ∧
    serveMux inner ⟨"OPTIONS", "/health", q, a⟩ = ⟨200, [], "OK"⟩ := by
  refine ⟨?_, rfl⟩
  intro p hp
  fin_cases hp <;>
    exact ⟨rfl, by simp [serveMux, corsMiddleware, corsHeaders, mcpConfigHandler,
      mcpConfigHeaders, serverCardHandler, serverCardHeaders], rfl⟩

/-- Witness for the amended C7: concrete OPTIONS requests to the
protocol endpoint and to the health endpoint. -/
theorem c7_options_preflight_witness :
    (serveMux (fun _ => ⟨200, [], ""⟩) ⟨"OPTIONS", "/mcp", [], ""⟩).status = 200 ∧
    ("Access-Control-Allow-Origin", "*") ∈
      (serveMux (fun _ => ⟨200, [], ""⟩) ⟨"OPTIONS", "/mcp", [], ""⟩).headers ∧
    (serveMux (fun _ => ⟨200, [], ""⟩) ⟨"OPTIONS", "/mcp", [], ""⟩).body = "" ∧
    serveMux (fun _ => ⟨200, [], ""⟩) ⟨"OPTIONS", "/health", [], ""⟩ = ⟨200, [], "OK"⟩ := by
  have h := c7_options_preflight (fun _ => ⟨200, [], ""⟩) [] ""
  exact ⟨(h.1 "/mcp" (by decide)).1, (h.1 "/mcp" (by decide)).2.1,
    (h.1 "/mcp" (by decide)).2.2, h.2⟩

/-- The startup effects of StartHTTPServer, in order. -/
inductive StartStep where
  | returnError (msg : String)
  | mountRoutes (paths : List String)
  | listen (addr : String)
deriving Repr, DecidableEq

/-- The startup error for an unrecognized transport
(src/internal/modes/httpserver.go line 107); the source text quotes
the two accepted names. -/
def invalidTransportMsg (t : String) : String :=
  "invalid transport type: " ++ t ++ " (must be sse or streamable)"

/-- Configuration of the HTTP server process. -/
structure HTTPServerConfig where
  host : String
  port : Nat
  transportType : String

/-- StartHTTPServer as its ordered startup effects
(src/internal/modes/httpserver.go lines 74-217): the transport switch
runs first and returns the configuration error on an unrecognized
name; only for sse or streamable does the function go on to mount the
routes and then bind the socket with ListenAndServe. -/
def startHTTPServerSteps (config : HTTPServerConfig) : List StartStep :=
  if config.transportType = "sse" then
    [.mountRoutes mountedPaths, .listen (config.host ++ ":" ++ toString config.port)]
  else if config.transportType = "streamable" then
    [.mountRoutes mountedPaths, .listen (config.host ++ ":" ++ toString config.port)]
  else
    [.returnError (invalidTransportMsg config.transportType)]

/-- C6: for every transport name other than sse and streamable,
StartHTTPServer returns the fatal configuration error as its only
effect, and in particular never reaches the listen step: no socket is
bound. -/
theorem c6_invalid_transport_no_listen (config : HTTPServerConfig)
    (h1 : config.transportType ≠ "sse") (h2 : config.transportType ≠ "streamable") :
    startHTTPServerSteps config =
      [.returnError (invalidTransportMsg config.transportType)] ∧
    ∀ a, StartStep.listen a ∉ startHTTPServerSteps config := by
  have hs : startHTTPServerSteps config =
      [.returnError (invalidTransportMsg config.transportType)] := by
    unfold startHTTPServerSteps
    rw [if_neg h1, if_neg h2]
  exact ⟨hs, fun a => by rw [hs]; simp⟩

/-- Witness for C6: the transport name local is rejected with the
configuration error and no listen effect. -/
theorem c6_invalid_transport_no_listen_witness :
    startHTTPServerSteps ⟨"0.0.0.0", 8080, "local"⟩ =
      [.returnError (invalidTransportMsg "local")] ∧
    ∀ a, StartStep.listen a ∉ startHTTPServerSteps ⟨"0.0.0.0", 8080, "local"⟩ :=
  c6_invalid_transport_no_listen ⟨"0.0.0.0", 8080, "local"⟩ (by decide) (by decide)

/-- Parameters of the search tool (internal/modes/params.go). -/
structure SearchParams where
  searchTerm : String

/-- Parameters of the download tool (internal/modes/params.go). -/
structure DownloadParams where
  bookHash : String
  title : String
  format : String

/-- A call made to the external archive-client capability
(internal/anna, an external collaborator): either a GetDownloadURL
request or a Download transfer. -/
inductive ArchiveCall where
  | getDownloadURL (hash title format secretKey : String)
  | download (hash title format secretKey downloadPath : String)
deriving Repr, DecidableEq

/-- SearchToolHandler (src/internal/modes/cli.go, lines 190-219 of the
second unit): delegates the term to anna.FindBook, renders each record
with its String method followed by a blank line, and returns the text
together with the books as the structured payload. The handler runs in
a process with an environment, but its body performs no environment
read, so the environment is threaded and unused. findBook stands for
the external archive-client capability. -/
def SearchToolHandler {β : Type} (bookString : β → String) (_env : EnvMap)
    (findBook : String → Except String (List β)) (params : SearchParams) :
    Except String (String × List β) :=
  match findBook params.searchTerm with
  | .error e => .error e
  | .ok books =>
      let bookList := books.foldl (fun acc b => acc ++ bookString b ++ "\n\n") ""
      .ok (bookList, books)

/-- Error message of the injected download handler
(src/internal/modes/cli.go line 236 of the second unit). -/
def downloadMissingKeyMsg : String :=
  "secret key is not configured. Please set ANNAS_SECRET_KEY, secretKey, or pass it via query parameters"

/-- NewDownloadToolHandler (src/internal/modes/cli.go lines 222-268 of
the second unit): the handler closed over an injected Env; it rejects
an empty secret key before anything else, and otherwise calls the
external GetDownloadURL capability and renders a markdown link. The
second component records every call made to the archive client. -/
def NewDownloadToolHandler (env : Env)
    (getDownloadURL : DownloadParams → String → Except String String)
    (params : DownloadParams) : Except String String × List ArchiveCall :=
  if env.secretKey = "" then (.error downloadMissingKeyMsg, [])
  else
    match getDownloadURL params env.secretKey with
    | .error e =>
        (.error e, [.getDownloadURL params.bookHash params.title params.format env.secretKey])
    | .ok url =>
        (.ok ("[" ++ params.title ++ "](" ++ url ++ ")"),
         [.getDownloadURL params.bookHash params.title params.format env.secretKey])

/-- DownloadToolHandler (src/unnamed/part_003 lines 44-89): the legacy
handler that resolves the configuration itself through GetEnv and then
calls the external Download capability; a resolution failure returns
the error before any archive call. -/
def DownloadToolHandler (envMap : EnvMap)
    (downloadBook : DownloadParams → String → String → Except String Unit)
    (params : DownloadParams) : Except String String × List ArchiveCall :=
  match GetEnv envMap with
  | .error e => (.error e, [])
  | .ok env =>
      match downloadBook params env.secretKey env.downloadPath with
      | .error e =>
          (.error e,
           [.download params.bookHash params.title params.format env.secretKey env.downloadPath])
      | .ok _ =>
          (.ok ("Book downloaded successfully to path: " ++ env.downloadPath),
           [.download params.bookHash params.title params.format env.secretKey env.downloadPath])

/-- C5: a download tool handler invocation whose resolved
configuration has an empty secret key fails with the
missing-credential error and makes no archive-client call: the
injected handler rejects before calling GetDownloadURL, and the
legacy handler, whose own resolution fails whenever every secret
tier is empty, returns that failure before calling Download. -/
theorem c5_download_no_archive_call_without_secret :
    (∀ (env : Env) (getDownloadURL : DownloadParams → String → Except String String)
        (params : DownloadParams), env.secretKey = "" →
      NewDownloadToolHandler env getDownloadURL params = (.error downloadMissingKeyMsg, [])) ∧
    (∀ (envMap : EnvMap) (downloadBook : DownloadParams → String → String → Except String Unit)
        (params : DownloadParams), firstNonEmpty (secretSources none envMap) = "" →
      DownloadToolHandler envMap downloadBook params = (.error loadEnvErrMsg, [])) := by
  constructor
  · intro env getDownloadURL params h
    unfold NewDownloadToolHandler
    rw [if_pos h]
  · intro envMap downloadBook params h
    unfold DownloadToolHandler GetEnv
    rw [loadEnv_eq_spec]
    simp [loadEnvSpec, h]

/-- Witness for C5: both handlers at concrete credential-less inputs
return the error with an empty archive-call list. -/
theorem c5_download_no_archive_call_without_secret_witness :
    NewDownloadToolHandler ⟨"", "/tmp/downloads"⟩ (fun _ _ => .ok "u") ⟨"h1", "t1", "pdf"⟩ =
      (.error downloadMissingKeyMsg, []) ∧
    DownloadToolHandler (fun _ => "") (fun _ _ _ => .ok ()) ⟨"h1", "t1", "pdf"⟩ =
      (.error loadEnvErrMsg, []) := by
  exact ⟨c5_download_no_archive_call_without_secret.1 ⟨"", "/tmp/downloads"⟩
      (fun _ _ => .ok "u") ⟨"h1", "t1", "pdf"⟩ rfl,
    c5_download_no_archive_call_without_secret.2 (fun _ => "")
      (fun _ _ _ => .ok ()) ⟨"h1", "t1", "pdf"⟩ rfl⟩

/-- C8: the search tool handler never reads the resolved
configuration: its result is the same under any two process
environments, and whenever the archive client returns a record list
the handler returns the rendered text with the records as structured
payload, secret key or not. -/
theorem c8_search_ignores_config {β : Type} (bookString : β → String)
    (findBook : String → Except String (List β)) (params : SearchParams) :
    (∀ env1 env2 : EnvMap,
      SearchToolHandler bookString env1 findBook params =
        SearchToolHandler bookString env2 findBook params) ∧
    (∀ (env : EnvMap) (books : List β), findBook params.searchTerm = .ok books →
      SearchToolHandler bookString env findBook params =
        .ok (books.foldl (fun acc b => acc ++ bookString b ++ "\n\n") "", books)) ∧
    (∀ (env : EnvMap) (e : String), findBook params.searchTerm = .error e →
      SearchToolHandler bookString env findBook params = .error e) := by
  refine ⟨fun env1 env2 => rfl, fun env books h => ?_, fun env e h => ?_⟩
  · unfold SearchToolHandler
    rw [h]
  · unfold SearchToolHandler
    rw [h]

/-- Witness for C8: a concrete search with one record succeeds with
the rendered text and payload under the empty environment. -/
theorem c8_search_ignores_config_witness :
    SearchToolHandler (fun b : String => b) (fun _ => "")
        (fun _ => .ok ["book-one"]) ⟨"term"⟩ =
      .ok ("" ++ "book-one" ++ "\n\n", ["book-one"]) := by
  exact (c8_search_ignores_config (fun b : String => b)
    (fun _ => .ok ["book-one"]) ⟨"term"⟩).2.1 (fun _ => "") ["book-one"] rfl

/-- A protocol-server instance: static identity and the names of the
registered tools, in registration order. -/
structure MCPServer where
  name : String
  version : String
  tools : List String
deriving Repr, DecidableEq

/-- createMCPServer (src/internal/modes/cli.go lines 284-305 of the
second unit): builds the server with the binary metadata and registers
the search tool and the download tool; the download handler is
NewDownloadToolHandler applied to the given env. The version string
comes from the external version package. -/
def createMCPServer (version : String) (_env : Env) : MCPServer :=
  ⟨"annas-mcp", version, ["search", "download"]⟩

/-- The configuration StartMCPServer hands to createMCPServer
(src/internal/modes/cli.go lines 307-333 of the second unit): the
process-environment resolution when it succeeds, and the empty Env
when it fails, after logging a warning. -/
def startMCPServerEnv (envMap : EnvMap) : Env :=
  match GetEnv envMap with
  | .ok env => env
  | .error _ => ⟨"", ""⟩

/-- C10: in stdio mode, when no secret key resolves from the process
environment, StartMCPServer still starts: the resolution failure is
replaced by the empty configuration, the server registers both tools,
the download handler bound to that configuration fails with the
missing-credential error without an archive call, and the search
handler still succeeds. -/
theorem c10_stdio_starts_without_secret (envMap : EnvMap) (version : String)
    (h1 : envMap "ANNAS_SECRET_KEY" = "") (h2 : envMap "secretKey" = "")
    (h3 : envMap "SECRET_KEY" = "") :
    GetEnv envMap = .error loadEnvErrMsg ∧
    startMCPServerEnv envMap = ⟨"", ""⟩ ∧
    (createMCPServer version (startMCPServerEnv envMap)).tools = ["search", "download"] ∧
    (∀ (getDownloadURL : DownloadParams → String → Except String String)
        (params : DownloadParams),
      NewDownloadToolHandler (startMCPServerEnv envMap) getDownloadURL params =
        (.error downloadMissingKeyMsg, [])) ∧
    (∀ {β : Type} (bookString : β → String) (findBook : String → Except String (List β))
        (params : SearchParams) (books : List β), findBook params.searchTerm = .ok books →
      SearchToolHandler bookString envMap findBook params =
        .ok (books.foldl (fun acc b => acc ++ bookString b ++ "\n\n") "", books)) := by
  have hres : GetEnv envMap = .error loadEnvErrMsg := by
    unfold GetEnv
    rw [loadEnv_eq_spec]
    simp [loadEnvSpec, secretSources, firstNonEmpty, h1, h2, h3]
  have henv : startMCPServerEnv envMap = ⟨"", ""⟩ := by
    unfold startMCPServerEnv
    rw [hres]
  refine ⟨hres, henv, rfl, fun getDownloadURL params => ?_, ?_⟩
  · rw [henv]
    unfold NewDownloadToolHandler
    rfl
  · intro β bookString findBook params books h
    unfold SearchToolHandler
    rw [h]

/-- Witness for C10: under the empty process environment, resolution
fails, the startup configuration is empty, both tools are registered,
a concrete download invocation fails without an archive call, and a
concrete search still succeeds. -/
theorem c10_stdio_starts_without_secret_witness :
    GetEnv (fun _ => "") = .error loadEnvErrMsg ∧
    startMCPServerEnv (fun _ => "") = ⟨"", ""⟩ ∧
    (createMCPServer "1.0.0" (startMCPServerEnv (fun _ => ""))).tools =
      ["search", "download"] ∧
    NewDownloadToolHandler (startMCPServerEnv (fun _ => "")) (fun _ _ => .ok "u")
        ⟨"h1", "t1", "pdf"⟩ = (.error downloadMissingKeyMsg, []) ∧
    SearchToolHandler (fun b : String => b) (fun _ => "")
        (fun _ => .ok ["book-one"]) ⟨"term"⟩ =
      .ok ("" ++ "book-one" ++ "\n\n", ["book-one"]) := by
  have h := c10_stdio_starts_without_secret (fun _ => "") "1.0.0" rfl rfl rfl
  exact ⟨h.1, h.2.1, h.2.2.1, h.2.2.2.1 (fun _ _ => .ok "u") ⟨"h1", "t1", "pdf"⟩,
    h.2.2.2.2 (fun b : String => b) (fun _ => .ok ["book-one"]) ⟨"term"⟩ ["book-one"] rfl⟩

end AnnasMcp
